import Mathlib

/-!
Shallow embedding of the notebook `intro-to-pytorch/Part 3 - Training Neural
Networks (Exercises).ipynb` (the file also carries the cells of the Part 2
notebook, where the manual `sigmoid` and `softmax` definitions live).

Numeric tensors are embedded over the real numbers: a 2-D tensor is a list of
rows, each row a list of reals.  Elementwise torch operations become `List.map`,
`torch.sum` over a whole tensor becomes the sum of all entries.
-/

namespace Notebook

/-- A 2-D tensor: a list of rows of real entries. -/
abbrev Tensor2 := List (List ℝ)

noncomputable section

/-- Elementwise `torch.exp(x)` on a 2-D tensor. -/
def tensorExp (x : Tensor2) : Tensor2 :=
  x.map (fun r => r.map Real.exp)

/-- `torch.sum(x)` with no `dim` argument: the sum of every entry of the tensor. -/
def tensorSum (x : Tensor2) : ℝ :=
  (x.map List.sum).sum

/-- `torch.div(x, c)` of a tensor by a scalar: elementwise division. -/
def scalarDiv (x : Tensor2) (c : ℝ) : Tensor2 :=
  x.map (fun r => r.map (fun v => v / c))

/-- The literal `1e-8` appearing in the notebook's `softmax`. -/
def eps : ℝ := 1 / 10 ^ 8

/-- The notebook's manual softmax, from the source cell
`def softmax(x): return torch.div(torch.exp(x), torch.sum(torch.exp(x)) + 1e-8)`.
Note the denominator is the sum of `exp` over the WHOLE tensor plus `1e-8`,
not a per-row sum. -/
def softmax (x : Tensor2) : Tensor2 :=
  scalarDiv (tensorExp x) (tensorSum (tensorExp x) + eps)

/-- The scalar logistic map applied by the notebook's `sigmoid` to each entry. -/
def sigmoidFun (v : ℝ) : ℝ :=
  1 / (1 + Real.exp (-v))

/-- The notebook's manual sigmoid, from the source cell
`def sigmoid(x): return 1 / (1 + torch.exp(-x))`, applied elementwise. -/
def sigmoid (x : Tensor2) : Tensor2 :=
  x.map (fun r => r.map sigmoidFun)

/-- Row-wise softmax as the spec describes it: each entry divided by the sum of
`exp` over the entries of the same row.  Written from the spec's words, to be
compared with the source's `softmax`. -/
def softmaxSpec (x : Tensor2) : Tensor2 :=
  x.map (fun r => r.map (fun v => Real.exp v / (r.map Real.exp).sum))

/-- The list of row sums of a 2-D tensor (`x.sum(dim=1)`). -/
def rowSums (x : Tensor2) : List ℝ :=
  x.map List.sum

/-- The all-zero 64×10 score tensor, a concrete instance of the shape produced
by the manual two-layer network (`out.shape == (64, 10)`). -/
def zeros64x10 : Tensor2 :=
  List.replicate 64 (List.replicate 10 (0 : ℝ))

end

theorem sum_map_div (l : List ℝ) (c : ℝ) :
    (l.map (fun v => v / c)).sum = l.sum / c := by
  induction l with
  | nil => simp
  | cons a t ih => simp [ih, add_div]

theorem tensorSum_scalarDiv (y : Tensor2) (c : ℝ) :
    tensorSum (scalarDiv y c) = tensorSum y / c := by
  unfold tensorSum scalarDiv
  rw [List.map_map]
  have h1 : (List.sum ∘ fun r : List ℝ => r.map (fun v => v / c)) =
      fun r : List ℝ => r.sum / c := by
    funext r
    exact sum_map_div r c
  rw [h1, ← sum_map_div (y.map List.sum) c, List.map_map]
  rfl

theorem tensorSum_exp_nonneg (x : Tensor2) : 0 ≤ tensorSum (tensorExp x) := by
  unfold tensorSum tensorExp
  apply List.sum_nonneg
  intro a ha
  rw [List.map_map] at ha
  obtain ⟨r, _, rfl⟩ := List.mem_map.mp ha
  apply List.sum_nonneg
  intro b hb
  obtain ⟨u, _, rfl⟩ := List.mem_map.mp hb
  exact (Real.exp_pos u).le

theorem eps_pos : 0 < eps := by
  unfold eps
  norm_num

theorem exp_zeros64x10 :
    tensorExp zeros64x10 = List.replicate 64 (List.replicate 10 (1 : ℝ)) := by
  simp [tensorExp, zeros64x10, List.map_replicate, Real.exp_zero]

theorem tensorSum_exp_zeros64x10 : tensorSum (tensorExp zeros64x10) = 640 := by
  rw [exp_zeros64x10]
  simp [tensorSum, List.map_replicate, List.sum_replicate]
  norm_num

theorem getD_map_of_lt {α β : Type} (f : α → β) (l : List α) (j : ℕ)
    (hj : j < l.length) (d : α) (d' : β) :
    (l.map f).getD j d' = f (l.getD j d) := by
  rw [List.getD_eq_getElem?_getD, List.getD_eq_getElem?_getD, List.getElem?_map,
    List.getElem?_eq_getElem hj]
  simp

/-- The five training losses printed by the recorded run of the training loop,
one per epoch, as exact decimals. -/
def printedLosses : List ℚ :=
  [18850516103732307 / 10 ^ 16, 8014646937598043 / 10 ^ 16,
   5028275515097799 / 10 ^ 16, 41888464472568365 / 10 ^ 17,
   378098160084059 / 10 ^ 15]

/-- C1: the claim says every row of `softmax` applied to a 64×10 input sums
to 1.  On the all-zero 64×10 input the code's rows each sum to
`10 / (640 + 1e-8)`, which is not 1: the denominator is the exp-sum of the
whole tensor, not of the row. -/
theorem softmax_zeros64x10_rows_do_not_sum_to_one :
    rowSums (softmax zeros64x10) = List.replicate 64 ((10 : ℝ) / (640 + eps)) ∧
    (10 : ℝ) / (640 + eps) ≠ 1 := by
  have hd : (640 : ℝ) + eps ≠ 0 := by
    unfold eps
    norm_num
  constructor
  · unfold softmax
    rw [tensorSum_exp_zeros64x10, exp_zeros64x10]
    simp [rowSums, scalarDiv, List.map_replicate, List.sum_replicate, nsmul_eq_mul,
      mul_one_div]
    rw [div_eq_mul_inv]
    ring
  · intro h
    rw [div_eq_one_iff_eq hd] at h
    unfold eps at h
    norm_num at h

/-- C2: the claim says the manual `softmax` divides each `e^{x_i}` by the sum
of `e^{x_k}` over the same sample's row.  On the input `[[0], [0]]` the code
yields `1/(2 + 1e-8)` in each entry while the row-wise softmax of the claim
yields 1: the code sums `exp` over the whole tensor and adds `1e-8`. -/
theorem softmax_ne_rowwise_softmax_on_zeros :
    softmax [[(0 : ℝ)], [0]] = [[1 / (2 + eps)], [1 / (2 + eps)]] ∧
    softmaxSpec [[(0 : ℝ)], [0]] = [[1], [1]] ∧
    (1 : ℝ) / (2 + eps) ≠ 1 := by
  have hd : (2 : ℝ) + eps ≠ 0 := by
    unfold eps
    norm_num
  refine ⟨?_, ?_, ?_⟩
  · simp [softmax, tensorExp, tensorSum, scalarDiv, Real.exp_zero]
    norm_num
  · simp [softmaxSpec, Real.exp_zero]
  · intro h
    rw [div_eq_one_iff_eq hd] at h
    unfold eps at h
    norm_num at h

/-- C9: every entry of the notebook's `softmax` output is strictly positive,
the sum of ALL entries of the output equals `S / (S + 1e-8)` where `S` is the
exp-sum of the whole input, that total is strictly below 1, and consequently
on a nonempty input the rows cannot all sum to 1. -/
theorem softmax_entries_pos_total_sum (x : Tensor2) :
    (∀ r ∈ softmax x, ∀ v ∈ r, 0 < v) ∧
    tensorSum (softmax x) =
      tensorSum (tensorExp x) / (tensorSum (tensorExp x) + eps) ∧
    tensorSum (softmax x) < 1 ∧
    (x ≠ [] → ¬ ∀ r ∈ softmax x, r.sum = 1) := by
  have hS : 0 ≤ tensorSum (tensorExp x) := tensorSum_exp_nonneg x
  have hd : 0 < tensorSum (tensorExp x) + eps := by
    linarith [eps_pos]
  have hsum : tensorSum (softmax x) =
      tensorSum (tensorExp x) / (tensorSum (tensorExp x) + eps) :=
    tensorSum_scalarDiv _ _
  have hlt : tensorSum (softmax x) < 1 := by
    rw [hsum, div_lt_one hd]
    linarith [eps_pos]
  refine ⟨?_, hsum, hlt, ?_⟩
  · intro r hr v hv
    unfold softmax scalarDiv at hr
    obtain ⟨r0, hr0, rfl⟩ := List.mem_map.mp hr
    obtain ⟨w, hw, rfl⟩ := List.mem_map.mp hv
    unfold tensorExp at hr0
    obtain ⟨rx, _, rfl⟩ := List.mem_map.mp hr0
    obtain ⟨u, _, rfl⟩ := List.mem_map.mp hw
    exact div_pos (Real.exp_pos u) hd
  · intro hne hall
    have hlen : (softmax x).length = x.length := by
      simp [softmax, scalarDiv, tensorExp]
    have h1 : tensorSum (softmax x) = ((softmax x).length : ℝ) := by
      unfold tensorSum
      have h2 : (softmax x).map List.sum = (softmax x).map (fun _ => (1 : ℝ)) :=
        List.map_congr_left (fun r hr => hall r hr)
      rw [h2]
      induction softmax x with
      | nil => simp
      | cons a t ih =>
          simp only [List.map_cons, List.sum_cons, List.length_cons, ih]
          push_cast
          ring
    have hge : (1 : ℝ) ≤ ((softmax x).length : ℝ) := by
      have h3 : 1 ≤ (softmax x).length := by
        rw [hlen]
        exact List.length_pos.mpr hne
      exact_mod_cast h3
    rw [h1] at hlt
    linarith

/-- Witness for C9: on the concrete nonempty input `[[0]]` the rows of the
notebook's softmax do not all sum to 1. -/
theorem softmax_entries_pos_total_sum_witness :
    ¬ ∀ r ∈ softmax [[(0 : ℝ)]], r.sum = 1 :=
  (softmax_entries_pos_total_sum [[(0 : ℝ)]]).2.2.2 (by simp)

/-- C5: every entry of the notebook's manual `sigmoid` equals
`1 / (1 + e^{-x})` applied to the corresponding input entry. -/
theorem sigmoid_entry_formula (x : Tensor2) (i j : ℕ) (hi : i < x.length)
    (hj : j < (x.getD i []).length) :
    ((sigmoid x).getD i []).getD j 0 =
      1 / (1 + Real.exp (-((x.getD i []).getD j 0))) := by
  unfold sigmoid
  rw [getD_map_of_lt (fun r => r.map sigmoidFun) x i hi []]
  rw [getD_map_of_lt sigmoidFun (x.getD i []) j hj 0]
  rfl

/-- Witness for C5: the (0,0) entry of `sigmoid [[2]]` is `1/(1+e^{-2})`. -/
theorem sigmoid_entry_formula_witness :
    ((sigmoid [[(2 : ℝ)]]).getD 0 []).getD 0 0 = 1 / (1 + Real.exp (-(2 : ℝ))) := by
  have h := sigmoid_entry_formula [[(2 : ℝ)]] 0 0 (by simp) (by simp)
  simpa using h

/-- C10: the logistic map applied entrywise by the notebook's `sigmoid` always
lies strictly between 0 and 1 and satisfies `sigmoid(x) + sigmoid(-x) = 1`. -/
theorem sigmoidFun_pos_lt_one_symm (v : ℝ) :
    0 < sigmoidFun v ∧ sigmoidFun v < 1 ∧ sigmoidFun v + sigmoidFun (-v) = 1 := by
  have h1 : 0 < Real.exp (-v) := Real.exp_pos _
  have h2 : 0 < Real.exp v := Real.exp_pos _
  refine ⟨?_, ?_, ?_⟩
  · unfold sigmoidFun
    positivity
  · unfold sigmoidFun
    rw [div_lt_one (by linarith)]
    linarith
  · have ha : Real.exp v ≠ 0 := (Real.exp_pos v).ne'
    unfold sigmoidFun
    rw [neg_neg, Real.exp_neg]
    have h3 : 1 + (Real.exp v)⁻¹ ≠ 0 := by positivity
    have h4 : 1 + Real.exp v ≠ 0 := by positivity
    field_simp
    ring

/-- C3: the five epoch losses printed by the recorded training run decrease
strictly from epoch to epoch. -/
theorem printedLosses_strictly_decreasing : printedLosses.Chain' (· > ·) := by
  unfold printedLosses
  norm_num [List.chain'_cons, List.chain'_singleton]

noncomputable section

/-- The learning rate passed to `optim.SGD` in the single-step demonstration
cell: `optim.SGD(model.parameters(), lr=0.01)`. -/
def lrSingleStep : ℝ := 1 / 100

/-- The learning rate passed to `optim.SGD` in the full training loop:
`optim.SGD(model.parameters(), lr=0.003)`. -/
def lrTrainingLoop : ℝ := 3 / 1000

/-- Modelled from the spec: the parameter update performed by one step of the
framework's SGD optimizer, `w ← w − α·∇w`, applied entrywise to a parameter
tensor `w` with gradient `g`.  The optimizer implementation is framework code
and is not among this repository's sources; only its constructor calls and
`optimizer.step()` invocations appear in the notebook. -/
def sgdStep (α : ℝ) (w g : List ℝ) : List ℝ :=
  List.zipWith (fun wi gi => wi - α * gi) w g

/-- A tensor recorded as its shape together with its flat data. -/
structure Tensor where
  shape : List ℕ
  data : List ℝ

/-- `t.view(t.shape[0], -1)` as the notebook uses it: keep the leading batch
dimension and collapse all remaining dimensions into one; the data is
unchanged. -/
def flattenView (t : Tensor) : Tensor :=
  { shape := [t.shape.headD 0, t.shape.tail.prod], data := t.data }

/-- One batch as delivered to the notebook code: an image tensor and a list of
integer class labels. -/
structure Batch where
  images : Tensor
  labels : List ℕ

/-- Modelled from the spec: the external MNIST data loader yields batches
whose image tensor has shape 64×1×28×28 with one real entry per position and
whose label list holds 64 integers in `[0, 9]`.  The loader is framework code
and is not among this repository's sources. -/
def isMNISTBatch (b : Batch) : Prop :=
  b.images.shape = [64, 1, 28, 28] ∧
  b.images.data.length = b.images.shape.prod ∧
  b.labels.length = 64 ∧
  ∀ l ∈ b.labels, l ≤ 9

/-- A concrete all-zero MNIST batch, used to witness the batch claims. -/
def sampleBatch : Batch :=
  { images := { shape := [64, 1, 28, 28], data := List.replicate (64 * 1 * 28 * 28) 0 },
    labels := List.replicate 64 0 }

end

theorem getD_zipWith (f : ℝ → ℝ → ℝ) (w g : List ℝ) (i : ℕ)
    (h1 : i < w.length) (h2 : i < g.length) :
    (List.zipWith f w g).getD i 0 = f (w.getD i 0) (g.getD i 0) := by
  induction w generalizing g i with
  | nil => simp at h1
  | cons a w ih =>
      cases g with
      | nil => simp at h2
      | cons b g =>
          cases i with
          | zero => simp
          | succ n =>
              simp only [List.zipWith_cons_cons, List.getD_cons_succ]
              exact ih g n (by simpa using h1) (by simpa using h2)

/-- C4: one optimizer step replaces each in-range parameter entry `w_i` by
`w_i − α·g_i`, for the learning rate `α` handed to the SGD constructor. -/
theorem sgdStep_entry_update (α : ℝ) (w g : List ℝ) (i : ℕ)
    (h1 : i < w.length) (h2 : i < g.length) :
    (sgdStep α w g).getD i 0 = w.getD i 0 - α * g.getD i 0 := by
  unfold sgdStep
  exact getD_zipWith (fun wi gi => wi - α * gi) w g i h1 h2

/-- Witness for C4: on the one-entry parameter `[1]` with gradient `[2]` and
the notebook's single-step learning rate, the step yields `1 − 0.01·2`. -/
theorem sgdStep_entry_update_witness :
    (sgdStep lrSingleStep [(1 : ℝ)] [2]).getD 0 0 = 1 - lrSingleStep * 2 := by
  have h := sgdStep_entry_update lrSingleStep [(1 : ℝ)] [2] 0 (by simp) (by simp)
  simpa using h

/-- The operations a single iteration of the notebook's training loop
performs, named after the source lines. -/
inductive TrainOp where
  | flattenImages : TrainOp
  | zeroGrad : TrainOp
  | forwardPass : TrainOp
  | computeLoss : TrainOp
  | backwardPass : TrainOp
  | optimizerStep : TrainOp
  | accumulateLoss : TrainOp
  deriving DecidableEq

/-- The body of the inner training loop, in the order of the source lines:
`images.view`, `optimizer.zero_grad()`, `output = model(images)`,
`loss = criterion(output, labels)`, `loss.backward()`, `optimizer.step()`,
`running_loss += loss.item()`. -/
def loopBody : List TrainOp :=
  [.flattenImages, .zeroGrad, .forwardPass, .computeLoss, .backwardPass,
   .optimizerStep, .accumulateLoss]

/-- The iterations of a training run of `e` epochs over `b` batches each: the
loop body is the same straight-line code in every iteration. -/
def trainingIterations (e b : ℕ) : List (List TrainOp) :=
  List.replicate (e * b) loopBody

/-- The five operations the spec's "fixed order" sentence names. -/
def coreOp : TrainOp → Bool
  | .zeroGrad => true
  | .forwardPass => true
  | .computeLoss => true
  | .backwardPass => true
  | .optimizerStep => true
  | _ => false

/-- C6: every iteration of the training loop performs the five operations
zero-gradients, forward pass, loss, backward pass, optimizer step in exactly
this order, omitting none. -/
theorem training_iteration_fixed_order (e b : ℕ) (it : List TrainOp)
    (h : it ∈ trainingIterations e b) :
    it.filter coreOp =
      [.zeroGrad, .forwardPass, .computeLoss, .backwardPass, .optimizerStep] := by
  unfold trainingIterations at h
  have h2 := List.eq_of_mem_replicate h
  subst h2
  rfl

/-- Witness for C6: the loop body itself, a member of a one-iteration run. -/
theorem training_iteration_fixed_order_witness :
    List.filter coreOp loopBody =
      [.zeroGrad, .forwardPass, .computeLoss, .backwardPass, .optimizerStep] :=
  training_iteration_fixed_order 1 1 loopBody (by decide)

/-- C7: a batch from the loader carries a 64×1×28×28 image tensor which the
notebook's `images.view(images.shape[0], -1)` flattens to shape 64×784,
keeping the batch dimension and all 784 = 1·28·28 pixel values per sample
(the data itself is untouched), alongside 64 labels in `[0, 9]`. -/
theorem batch_flatten_shape (b : Batch) (h : isMNISTBatch b) :
    (flattenView b.images).shape = [64, 784] ∧
    (flattenView b.images).data = b.images.data ∧
    (flattenView b.images).data.length = 64 * 784 ∧
    (784 : ℕ) = 1 * 28 * 28 ∧
    b.labels.length = 64 ∧
    ∀ l ∈ b.labels, l ≤ 9 := by
  obtain ⟨hs, hd, hl, hr⟩ := h
  refine ⟨?_, rfl, ?_, by norm_num, hl, hr⟩
  · unfold flattenView
    rw [hs]
    norm_num
  · show b.images.data.length = 64 * 784
    rw [hd, hs]
    norm_num

/-- Witness for C7: the all-zero sample batch flattens to shape 64×784 with
64 in-range labels. -/
theorem batch_flatten_shape_witness :
    (flattenView sampleBatch.images).shape = [64, 784] ∧
    (flattenView sampleBatch.images).data = sampleBatch.images.data ∧
    (flattenView sampleBatch.images).data.length = 64 * 784 ∧
    (784 : ℕ) = 1 * 28 * 28 ∧
    sampleBatch.labels.length = 64 ∧
    ∀ l ∈ sampleBatch.labels, l ≤ 9 :=
  batch_flatten_shape sampleBatch
    (by
      refine ⟨rfl, ?_, ?_, ?_⟩
      · show (List.replicate (64 * 1 * 28 * 28) (0 : ℝ)).length = List.prod [64, 1, 28, 28]
        rw [List.length_replicate]
        norm_num [List.prod_cons, List.prod_nil]
      · show (List.replicate 64 (0 : ℕ)).length = 64
        rw [List.length_replicate]
      · intro l hl
        rw [show sampleBatch.labels = List.replicate 64 0 from rfl,
          List.mem_replicate] at hl
        omega)

/-- The framework and library operations the notebook's code cells invoke,
one constructor per distinct call site kind appearing in the source. -/
inductive LibCall where
  | transformsCompose : LibCall
  | datasetsMNIST : LibCall
  | dataLoader : LibCall
  | nnSequential : LibCall
  | nnCrossEntropyLoss : LibCall
  | nnNLLLoss : LibCall
  | nextBatch : LibCall
  | imagesView : LibCall
  | imagesResize : LibCall
  | modelForward : LibCall
  | criterionApply : LibCall
  | torchRandn : LibCall
  | torchZeros : LibCall
  | torchPow : LibCall
  | torchMean : LibCall
  | torchExp : LibCall
  | torchSum : LibCall
  | torchDiv : LibCall
  | torchMm : LibCall
  | lossBackward : LibCall
  | lossItem : LibCall
  | optimSGD : LibCall
  | zeroGradCall : LibCall
  | stepCall : LibCall
  | printOut : LibCall
  | gradRead : LibCall
  | pltImshow : LibCall
  | helperViewClassify : LibCall
  | networkConstruct : LibCall
  | fillInPlace : LibCall
  | normalInPlace : LibCall
  | iterLoader : LibCall
  | dataiterNext : LibCall
  | sigmoidApply : LibCall
  | softmaxApply : LibCall
  deriving DecidableEq

/-- An error escaping a statement: either the framework's own exception from a
failed library call, or an exception raised by repository code. -/
inductive PyErr where
  | frameworkExc : LibCall → PyErr
  | repoExc : PyErr
  deriving DecidableEq

/-- The fragment of Python statement syntax needed to record the notebook's
cells: library calls (with or without assignment of the result), sequencing,
`for` loops, `try/except`, `raise`, class definitions (flagged when the class
is an exception type) and function definitions (carrying their body). -/
inductive PyStmt where
  | call : LibCall → PyStmt
  | seq : PyStmt → PyStmt → PyStmt
  | forLoop : PyStmt → PyStmt
  | tryExcept : PyStmt → PyStmt → PyStmt
  | raiseExc : PyStmt
  | classDef : Bool → PyStmt
  | funcDef : PyStmt → PyStmt
  | skip : PyStmt
  deriving DecidableEq

/-- Fold a cell's statement list into one sequenced statement. -/
def seqAll (l : List PyStmt) : PyStmt :=
  l.foldr PyStmt.seq PyStmt.skip

/-- Does the statement contain a `try/except` anywhere (function bodies
included)? -/
def hasTryExcept : PyStmt → Bool
  | .seq a b => hasTryExcept a || hasTryExcept b
  | .forLoop b => hasTryExcept b
  | .tryExcept _ _ => true
  | .funcDef b => hasTryExcept b
  | _ => false

/-- Does the statement contain a `raise` anywhere (function bodies and
handlers included)? -/
def hasRaise : PyStmt → Bool
  | .seq a b => hasRaise a || hasRaise b
  | .forLoop b => hasRaise b
  | .tryExcept a b => hasRaise a || hasRaise b
  | .raiseExc => true
  | .funcDef b => hasRaise b
  | _ => false

/-- Does the statement define an exception class anywhere? -/
def definesExcClass : PyStmt → Bool
  | .seq a b => definesExcClass a || definesExcClass b
  | .forLoop b => definesExcClass b
  | .tryExcept a b => definesExcClass a || definesExcClass b
  | .classDef isExc => isExc
  | .funcDef b => definesExcClass b
  | _ => false

/-- Eager execution of a statement.  `ok c` says whether the framework call
`c` succeeds on the current input; a failing call raises that framework's
exception, `raise` raises a repository exception, and `try/except` swallows
whatever its body raises and runs the handler.  Defining a function or class
runs no body. -/
def exec (ok : LibCall → Bool) : PyStmt → Except PyErr Unit
  | .call c => if ok c then .ok () else .error (.frameworkExc c)
  | .seq a b =>
      match exec ok a with
      | .ok _ => exec ok b
      | .error e => .error e
  | .forLoop b => exec ok b
  | .tryExcept a h =>
      match exec ok a with
      | .ok _ => .ok ()
      | .error _ => exec ok h
  | .raiseExc => .error .repoExc
  | .classDef _ => .ok ()
  | .funcDef _ => .ok ()
  | .skip => .ok ()

theorem exec_error_uncaught (ok : LibCall → Bool) (p : PyStmt)
    (ht : hasTryExcept p = false) (hr : hasRaise p = false) (e : PyErr)
    (he : exec ok p = Except.error e) :
    ∃ c, e = PyErr.frameworkExc c ∧ ok c = false := by
  induction p with
  | call c =>
      unfold exec at he
      by_cases h : ok c
      · simp [h] at he
      · simp [h] at he
        exact ⟨c, he.symm, by simp [h]⟩
  | seq a b iha ihb =>
      unfold hasTryExcept at ht
      unfold hasRaise at hr
      simp only [Bool.or_eq_false_iff] at ht hr
      unfold exec at he
      cases h : exec ok a with
      | ok u => exact ihb ht.2 hr.2 (by rw [h] at he; exact he)
      | error e2 =>
          rw [h] at he
          simp only [Except.error.injEq] at he
          subst he
          exact iha ht.1 hr.1 h
  | forLoop b ihb =>
      unfold hasTryExcept at ht
      unfold hasRaise at hr
      exact ihb ht hr (by unfold exec at he; exact he)
  | tryExcept a b iha ihb =>
      unfold hasTryExcept at ht
      simp at ht
  | raiseExc =>
      unfold hasRaise at hr
      simp at hr
  | classDef isExc => unfold exec at he; simp at he
  | funcDef b ihb => unfold exec at he; simp at he
  | skip => unfold exec at he; simp at he

/- The notebook's code cells, in order.  Cells of the training notebook. -/

def cellLoadData : PyStmt :=
  seqAll [.call .transformsCompose, .call .datasetsMNIST, .call .dataLoader]

def cellFirstLoss : PyStmt :=
  seqAll [.call .nnSequential, .call .nnCrossEntropyLoss, .call .nextBatch,
    .call .imagesView, .call .modelForward, .call .criterionApply, .call .printOut]

def cellLogSoftmaxLoss : PyStmt :=
  seqAll [.call .nnSequential, .call .nnCrossEntropyLoss, .call .nextBatch,
    .call .imagesView, .call .modelForward, .call .criterionApply, .call .printOut]

def cellRandn : PyStmt :=
  seqAll [.call .torchRandn, .call .printOut]

def cellSquare : PyStmt :=
  seqAll [.call .torchPow, .call .printOut]

def cellGradFn : PyStmt :=
  seqAll [.call .printOut]

def cellMean : PyStmt :=
  seqAll [.call .torchMean, .call .printOut]

def cellGradNone : PyStmt :=
  seqAll [.call .gradRead, .call .printOut]

def cellBackwardZ : PyStmt :=
  seqAll [.call .lossBackward, .call .printOut, .call .printOut]

def cellNLLSetup : PyStmt :=
  seqAll [.call .nnSequential, .call .nnNLLLoss, .call .nextBatch,
    .call .imagesView, .call .modelForward, .call .criterionApply]

def cellBackwardLoss : PyStmt :=
  seqAll [.call .printOut, .call .lossBackward, .call .printOut]

def cellMakeOptimizer : PyStmt :=
  seqAll [.call .optimSGD]

def cellSingleStepGrad : PyStmt :=
  seqAll [.call .printOut, .call .nextBatch, .call .imagesResize,
    .call .zeroGradCall, .call .modelForward, .call .criterionApply,
    .call .lossBackward, .call .printOut]

def cellSingleStepUpdate : PyStmt :=
  seqAll [.call .stepCall, .call .printOut]

def cellTrainingLoop : PyStmt :=
  seqAll [.call .nnSequential, .call .nnNLLLoss, .call .optimSGD,
    .forLoop (.seq
      (.forLoop (seqAll [.call .imagesView, .call .zeroGradCall,
        .call .modelForward, .call .criterionApply, .call .lossBackward,
        .call .stepCall, .call .lossItem]))
      (.call .printOut))]

def cellInference : PyStmt :=
  seqAll [.call .nextBatch, .call .imagesView, .call .modelForward,
    .call .torchExp, .call .helperViewClassify]

/- Cells of the companion notebook carried in the same file (where the manual
`sigmoid` and `softmax` are defined). -/

def cellP2LoadData : PyStmt :=
  seqAll [.call .transformsCompose, .call .datasetsMNIST, .call .dataLoader]

def cellP2Inspect : PyStmt :=
  seqAll [.call .iterLoader, .call .dataiterNext, .call .printOut,
    .call .printOut, .call .printOut]

def cellP2Imshow : PyStmt :=
  seqAll [.call .pltImshow]

def cellP2ManualNet : PyStmt :=
  seqAll [.funcDef (.call .torchExp), .call .imagesView, .call .torchRandn,
    .call .torchZeros, .call .torchRandn, .call .torchZeros, .call .torchMm,
    .call .sigmoidApply, .call .torchMm]

def cellP2Softmax : PyStmt :=
  seqAll [.funcDef (seqAll [.call .torchExp, .call .torchSum, .call .torchDiv]),
    .call .softmaxApply, .call .printOut, .call .printOut]

def cellP2NetworkClass : PyStmt :=
  seqAll [.classDef false]

def cellP2MakeNetwork : PyStmt :=
  seqAll [.call .networkConstruct]

def cellP2FunctionalClass : PyStmt :=
  seqAll [.classDef false]

def cellP2PrintWeights : PyStmt :=
  seqAll [.call .printOut, .call .printOut]

def cellP2FillBias : PyStmt :=
  seqAll [.call .fillInPlace]

def cellP2NormalWeight : PyStmt :=
  seqAll [.call .normalInPlace]

def cellP2ForwardPass : PyStmt :=
  seqAll [.call .iterLoader, .call .dataiterNext, .call .imagesResize,
    .call .modelForward, .call .helperViewClassify]

def cellP2Sequential : PyStmt :=
  seqAll [.call .nnSequential, .call .printOut, .call .nextBatch,
    .call .imagesResize, .call .modelForward, .call .helperViewClassify]

def cellP2PrintLayer : PyStmt :=
  seqAll [.call .printOut]

def cellP2OrderedDict : PyStmt :=
  seqAll [.call .nnSequential]

def cellP2PrintNamed : PyStmt :=
  seqAll [.call .printOut, .call .printOut]

/-- Every code cell of the repository's one source file, in order. -/
def notebookProgram : PyStmt :=
  seqAll [cellLoadData, cellFirstLoss, cellLogSoftmaxLoss, cellRandn,
    cellSquare, cellGradFn, cellMean, cellGradNone, cellBackwardZ,
    cellNLLSetup, cellBackwardLoss, cellMakeOptimizer, cellSingleStepGrad,
    cellSingleStepUpdate, cellTrainingLoop, cellInference,
    cellP2LoadData, cellP2Inspect, cellP2Imshow, cellP2ManualNet,
    cellP2Softmax, cellP2NetworkClass, cellP2MakeNetwork,
    cellP2FunctionalClass, cellP2PrintWeights, cellP2FillBias,
    cellP2NormalWeight, cellP2ForwardPass, cellP2Sequential,
    cellP2PrintLayer, cellP2OrderedDict, cellP2PrintNamed]

/-- An input on which the framework's dataset download fails and every other
call succeeds. -/
def failMNIST : LibCall → Bool :=
  fun c => decide (c ≠ LibCall.datasetsMNIST)

/-- C8: the notebook code contains no `try/except`, no `raise` and no
repository-defined exception class, so whenever execution stops with an
error, that error is some framework call's own exception, propagating
unhandled. -/
theorem notebook_no_error_handling :
    hasTryExcept notebookProgram = false ∧
    hasRaise notebookProgram = false ∧
    definesExcClass notebookProgram = false ∧
    ∀ (ok : LibCall → Bool) (e : PyErr),
      exec ok notebookProgram = Except.error e →
        ∃ c, e = PyErr.frameworkExc c ∧ ok c = false := by
  refine ⟨by decide, by decide, by decide, ?_⟩
  intro ok e he
  exact exec_error_uncaught ok notebookProgram (by decide) (by decide) e he

/-- Witness for C8: with the dataset download failing, execution of the
notebook stops with exactly the framework's MNIST exception, uncaught. -/
theorem notebook_no_error_handling_witness :
    ∃ c, PyErr.frameworkExc LibCall.datasetsMNIST = PyErr.frameworkExc c ∧
      failMNIST c = false :=
  notebook_no_error_handling.2.2.2 failMNIST
    (PyErr.frameworkExc LibCall.datasetsMNIST) rfl

end Notebook
